import Mathlib

/-!
Verification of the metric-computation and scoring engine of
`typescript-score-check` (`src/functions/helper.ts`, re-exported through
`src/index.ts`), against its natural-language specification.

The syntax-tree provider (ts-morph) is modelled as a rose tree of nodes.
Each node carries a kind tag plus the optional kind-specific accessors the
engine queries: the operator token of a binary expression
(`getOperatorToken`), the modifier list of a class member (`getModifiers`),
the return-type annotation of a function (`getReturnTypeNode`), the
`isReadonly` field of a property's structure (`getStructure().isReadonly`),
and the scoping flags of a declaration list (`getFlags`). An accessor the
node lacks is `none`, mirroring the source's
`typeof (x as any).f === "function"` guards. Numeric results are the exact
rationals the floating-point code computes (all values involved are small
and exactly representable, so ℚ is a faithful model of the arithmetic).
-/

namespace TsScore

/-- The node-kind tags queried by the engine (`ts.SyntaxKind` in the source),
plus a few structural kinds used to build realistic trees. -/
inductive SKind where
  | anyKeyword
  | typeReference
  | ifStatement
  | switchStatement
  | forStatement
  | forInStatement
  | forOfStatement
  | whileStatement
  | doStatement
  | tryStatement
  | catchClause
  | conditionalExpression
  | binaryExpression
  | typeAssertionExpression
  | nonNullExpression
  | asExpression
  | callExpression
  | propertyDeclaration
  | variableDeclaration
  | variableDeclarationList
  | questionDotToken
  | questionQuestionToken
  | functionDeclaration
  | classDeclaration
  | ampersandAmpersandToken
  | barBarToken
  | identifier
  | parameter
  | block
  | returnStatement
  | sourceFileKind
  | otherKind
  deriving DecidableEq, Repr

/-- `ts.NodeFlags` bits tested by `calculatePreferConst` / `calculateAvoidVar`. -/
def NodeFlags.Let : Nat := 1

/-- `ts.NodeFlags.Const`. -/
def NodeFlags.Const : Nat := 2

/-- The data of one tree node: its kind and the optional kind-specific
accessors the engine queries. A `none` accessor models a node on which the
corresponding method does not exist. -/
structure NodeInfo where
  kind : SKind
  operatorToken : Option SKind := none
  modifiers : Option (List SKind) := none
  returnTypeNode : Option SKind := none
  structureIsReadonly : Option Bool := none
  flags : Nat := 0
  deriving DecidableEq, Repr

/-- A parsed syntax tree: node data plus children, in document order. -/
inductive Node where
  | node (info : NodeInfo) (children : List Node) : Node
  deriving Repr

def Node.info : Node → NodeInfo
  | .node i _ => i

def Node.children : Node → List Node
  | .node _ cs => cs

/-- `node.getKind()`. -/
def Node.getKind (n : Node) : SKind := n.info.kind

/-- `node.getFlags()`. -/
def Node.getFlags (n : Node) : Nat := n.info.flags

/-- All strict descendants of the nodes of `cs`, each paired with its parent;
`p` is the parent of the nodes of `cs` themselves. Pre-order, so the pairs
appear in document order, as ts-morph's descendant traversal does. -/
def pairsUnder (p : Node) : List Node → List (Node × Node)
  | [] => []
  | .node i cs :: rest =>
      (Node.node i cs, p) :: (pairsUnder (Node.node i cs) cs ++ pairsUnder p rest)

/-- Every strict descendant of `n` paired with its parent node
(`d.getParent()` for a descendant `d`). -/
def Node.descendantPairs (n : Node) : List (Node × Node) :=
  pairsUnder n n.children

/-- `node.getDescendants()`: every strict descendant, document order. -/
def Node.getDescendants (n : Node) : List Node :=
  n.descendantPairs.map Prod.fst

/-- `node.getDescendantsOfKind(kind)`. -/
def Node.getDescendantsOfKind (n : Node) (k : SKind) : List Node :=
  n.getDescendants.filter (fun m => m.getKind == k)

/-- `sourceFile.getFunctions()`: the file's function-declaration statements. -/
def Node.getFunctions (sf : Node) : List Node :=
  sf.children.filter (fun c => c.getKind == SKind.functionDeclaration)

/-- `sourceFile.getClasses()`: the file's class-declaration statements. -/
def Node.getClasses (sf : Node) : List Node :=
  sf.children.filter (fun c => c.getKind == SKind.classDeclaration)

/-- `cls.getMembers()`: the members of a class declaration (modelled as the
class node's children). -/
def Node.getMembers (cls : Node) : List Node :=
  cls.children

/-- `f.getReturnTypeNode()` as a truthiness test: does the function carry an
explicit return-type annotation? -/
def Node.hasReturnTypeNode (f : Node) : Bool :=
  f.info.returnTypeNode.isSome

/-- The member filter of `calculateAccessModifiers`:
`typeof member.getModifiers === "function" && member.getModifiers().length > 0`.
A member without the accessor is non-matching. -/
def memberHasModifiers (m : Node) : Bool :=
  match m.info.modifiers with
  | some ms => ms.length > 0
  | none => false

/-- The binary-expression filter of `calculateComplexity` and
`calculateOptionalChaining`:
`typeof expr.getOperatorToken === "function" && expr.getOperatorToken().getKind() === k`.
An expression without the accessor is non-matching. -/
def opTokenIs (e : Node) (k : SKind) : Bool :=
  match e.info.operatorToken with
  | some t => t == k
  | none => false

/-- The property filter of `calculateUseReadonly`:
`typeof p.getStructure === "function" && p.getStructure().isReadonly === true`.
A property without the accessor is non-matching. -/
def propIsReadonly (p : Node) : Bool :=
  match p.info.structureIsReadonly with
  | some b => b == true
  | none => false

/-- `calculateAvoidAny` (helper.ts): `1 - anyCount / denominator` where the
denominator is the type-reference count, falling back to the `any` count,
falling back to 1. -/
def calculateAvoidAny (sourceFile : Node) : ℚ :=
  let anyCount := (sourceFile.getDescendantsOfKind SKind.anyKeyword).length
  let typeRefCount := (sourceFile.getDescendantsOfKind SKind.typeReference).length
  let denominator := if typeRefCount > 0 then typeRefCount
    else if anyCount > 0 then anyCount else 1
  1 - (anyCount : ℚ) / (denominator : ℚ)

/-- `calculateReturnTypes` (helper.ts). -/
def calculateReturnTypes (sourceFile : Node) : ℚ :=
  let functions := sourceFile.getFunctions
  if functions.length = 0 then 1
  else
    let withReturn := (functions.filter Node.hasReturnTypeNode).length
    (withReturn : ℚ) / (functions.length : ℚ)

/-- `calculateAccessModifiers` (helper.ts). -/
def calculateAccessModifiers (sourceFile : Node) : ℚ :=
  let classes := sourceFile.getClasses
  if classes.length = 0 then 1
  else
    let allMembers := (classes.map Node.getMembers).flatten
    let members := allMembers.length
    let withModifiers := (allMembers.filter memberHasModifiers).length
    if members = 0 then 1 else (withModifiers : ℚ) / (members : ℚ)

/-- Per-function cyclomatic count of `calculateComplexity`: base 1, plus one
per branching/looping construct descendant, plus one per logical-AND and
logical-OR binary expression descendant. -/
def functionComplexity (f : Node) : Nat :=
  1 + (f.getDescendantsOfKind SKind.ifStatement).length
    + (f.getDescendantsOfKind SKind.switchStatement).length
    + (f.getDescendantsOfKind SKind.forStatement).length
    + (f.getDescendantsOfKind SKind.forInStatement).length
    + (f.getDescendantsOfKind SKind.forOfStatement).length
    + (f.getDescendantsOfKind SKind.whileStatement).length
    + (f.getDescendantsOfKind SKind.doStatement).length
    + (f.getDescendantsOfKind SKind.tryStatement).length
    + (f.getDescendantsOfKind SKind.catchClause).length
    + (f.getDescendantsOfKind SKind.conditionalExpression).length
    + ((f.getDescendantsOfKind SKind.binaryExpression).filter
        (fun e => opTokenIs e SKind.ampersandAmpersandToken)).length
    + ((f.getDescendantsOfKind SKind.binaryExpression).filter
        (fun e => opTokenIs e SKind.barBarToken)).length

/-- `calculateComplexity` (helper.ts): average the per-function count and map
through `max(0, 1 - (avg - 1) / 5)`. -/
def calculateComplexity (sourceFile : Node) : ℚ :=
  let functions := sourceFile.getFunctions
  if functions.length = 0 then 1
  else
    let totalComplexity := (functions.map functionComplexity).sum
    let avgComplexity : ℚ := (totalComplexity : ℚ) / (functions.length : ℚ)
    max 0 (1 - (avgComplexity - 1) / 5)

/-- The construct kinds that increment nesting depth in `getNesting`. -/
def nestingKinds : List SKind :=
  [SKind.ifStatement, SKind.switchStatement, SKind.forStatement,
   SKind.forInStatement, SKind.forOfStatement, SKind.whileStatement,
   SKind.doStatement]

mutual

/-- The recursive `getNesting(node, current)` of `calculateNesting`: the
maximum, over the node's subtree, of the depth reached, where depth
increments only when descending into a construct of `nestingKinds`. -/
def getNesting : Node → Nat → Nat
  | .node _ cs, current => getNestingList cs current

/-- The `forEachChild` loop of `getNesting`: fold of `max` over the children's
results, starting from `localMax = current`. -/
def getNestingList : List Node → Nat → Nat
  | [], current => current
  | .node i cs :: rest, current =>
      let child := Node.node i cs
      let d := if nestingKinds.contains child.getKind
        then getNesting child (current + 1)
        else getNesting child current
      max (getNestingList rest current) d

end

/-- `calculateNesting` (helper.ts): maximum `getNesting` over the file's
functions, mapped through `max(0, 1 - depth / 4)`. -/
def calculateNesting (sourceFile : Node) : ℚ :=
  let functions := sourceFile.getFunctions
  if functions.length = 0 then 1
  else
    let maxNesting := (functions.map (fun f => getNesting f 0)).foldl max 0
    max 0 (1 - (maxNesting : ℚ) / 4)

/-- The `lets` filter of `calculatePreferConst`: a variable declaration whose
parent is a declaration list with the `Let` flag set. -/
def isLetDeclPair (pr : Node × Node) : Bool :=
  pr.2.getKind == SKind.variableDeclarationList
    && (pr.2.getFlags &&& NodeFlags.Let) != 0

/-- The `consts` filter of `calculatePreferConst`. -/
def isConstDeclPair (pr : Node × Node) : Bool :=
  pr.2.getKind == SKind.variableDeclarationList
    && (pr.2.getFlags &&& NodeFlags.Const) != 0

/-- `calculatePreferConst` (helper.ts). -/
def calculatePreferConst (sourceFile : Node) : ℚ :=
  let decls := sourceFile.descendantPairs.filter
    (fun pr => pr.1.getKind == SKind.variableDeclaration)
  let lets := decls.filter isLetDeclPair
  let consts := decls.filter isConstDeclPair
  let total := lets.length + consts.length
  if total = 0 then 1 else (consts.length : ℚ) / (total : ℚ)

/-- `calculateAvoidAssertions` (helper.ts). -/
def calculateAvoidAssertions (sourceFile : Node) : ℚ :=
  let assertions :=
    (sourceFile.getDescendantsOfKind SKind.typeAssertionExpression).length
      + (sourceFile.getDescendantsOfKind SKind.nonNullExpression).length
  let asExpressions := (sourceFile.getDescendantsOfKind SKind.asExpression).length
  let callExpressions := (sourceFile.getDescendantsOfKind SKind.callExpression).length
  let binaryExpressions := (sourceFile.getDescendantsOfKind SKind.binaryExpression).length
  let totalExpressions :=
    if asExpressions + callExpressions + binaryExpressions = 0 then 1
    else asExpressions + callExpressions + binaryExpressions
  1 - (assertions : ℚ) / (totalExpressions : ℚ)

/-- `calculateUseReadonly` (helper.ts). -/
def calculateUseReadonly (sourceFile : Node) : ℚ :=
  let properties := sourceFile.getDescendantsOfKind SKind.propertyDeclaration
  if properties.length = 0 then 1
  else
    let readonlyCount := (properties.filter propIsReadonly).length
    (readonlyCount : ℚ) / (properties.length : ℚ)

/-- The `some` predicate of `calculateAvoidVar`: a variable declaration whose
parent is a declaration list scoped neither `let` nor `const`. -/
def isVarDeclPair (pr : Node × Node) : Bool :=
  pr.2.getKind == SKind.variableDeclarationList
    && (pr.2.getFlags &&& (NodeFlags.Let ||| NodeFlags.Const)) == 0

/-- `calculateAvoidVar` (helper.ts): binary metric. -/
def calculateAvoidVar (sourceFile : Node) : ℚ :=
  if (sourceFile.descendantPairs.filter
      (fun pr => pr.1.getKind == SKind.variableDeclaration)).any isVarDeclPair
  then 0 else 1

/-- `calculateOptionalChaining` (helper.ts). -/
def calculateOptionalChaining (sourceFile : Node) : ℚ :=
  let manualNullChecks := ((sourceFile.getDescendantsOfKind SKind.binaryExpression).filter
    (fun e => opTokenIs e SKind.ampersandAmpersandToken)).length
  let modernOperators :=
    (sourceFile.getDescendantsOfKind SKind.questionDotToken).length
      + (sourceFile.getDescendantsOfKind SKind.questionQuestionToken).length
  let totalNullChecks :=
    if manualNullChecks + modernOperators = 0 then 1
    else manualNullChecks + modernOperators
  (modernOperators : ℚ) / (totalNullChecks : ℚ)

/-- The `metrics` record built per file in `index.ts`. -/
structure MetricSet where
  avoidAny : ℚ
  returnTypes : ℚ
  accessModifiers : ℚ
  complexity : ℚ
  nesting : ℚ
  preferConst : ℚ
  avoidAssertions : ℚ
  useReadonly : ℚ
  avoidVar : ℚ
  optionalChaining : ℚ
  deriving DecidableEq, Repr

/-- The per-file metric computation run by the CLI action in `index.ts`. -/
def computeMetrics (sourceFile : Node) : MetricSet :=
  { avoidAny := calculateAvoidAny sourceFile
    returnTypes := calculateReturnTypes sourceFile
    accessModifiers := calculateAccessModifiers sourceFile
    complexity := calculateComplexity sourceFile
    nesting := calculateNesting sourceFile
    preferConst := calculatePreferConst sourceFile
    avoidAssertions := calculateAvoidAssertions sourceFile
    useReadonly := calculateUseReadonly sourceFile
    avoidVar := calculateAvoidVar sourceFile
    optionalChaining := calculateOptionalChaining sourceFile }

/-- `Object.entries(metrics)` for the metric record of `index.ts`: the ten
keys in the object literal's insertion order (the canonical metric order). -/
def msEntries (m : MetricSet) : List (String × ℚ) :=
  [("avoidAny", m.avoidAny),
   ("returnTypes", m.returnTypes),
   ("accessModifiers", m.accessModifiers),
   ("complexity", m.complexity),
   ("nesting", m.nesting),
   ("preferConst", m.preferConst),
   ("avoidAssertions", m.avoidAssertions),
   ("useReadonly", m.useReadonly),
   ("avoidVar", m.avoidVar),
   ("optionalChaining", m.optionalChaining)]

/-- The `weights` table of helper.ts. -/
def weights : List (String × ℚ) :=
  [("avoidAny", 10),
   ("returnTypes", 10),
   ("accessModifiers", 10),
   ("complexity", 10),
   ("nesting", 10),
   ("preferConst", 10),
   ("avoidAssertions", 10),
   ("useReadonly", 10),
   ("avoidVar", 10),
   ("optionalChaining", 10)]

/-- `weights[key]`, `undefined` when the key is absent. -/
def weightOf (key : String) : Option ℚ :=
  (weights.find? (fun kv => kv.1 == key)).map Prod.snd

/-- `calculateScore` (helper.ts): fold of `weights[key] * value` over the
record's entries, skipping keys without a defined weight; divided by the sum
of ALL weights in the table, times 100; 0 when the total weight is not
positive. -/
def calculateScore (metrics : List (String × ℚ)) : ℚ :=
  let weightedSum := metrics.foldl
    (fun sum kv =>
      match weightOf kv.1 with
      | some w => sum + w * kv.2
      | none => sum) 0
  let totalWeight := (weights.map Prod.snd).sum
  if totalWeight > 0 then weightedSum / totalWeight * 100 else 0

/-- `generateSuggestions` (helper.ts): one fixed string per metric strictly
below 1, pushed in the source's fixed order. -/
def generateSuggestions (metrics : MetricSet) : List String :=
  (if metrics.avoidAny < 1 then
    ["Replace `any` with specific types or `unknown`."] else [])
  ++ ((if metrics.returnTypes < 1 then
    ["Add explicit return types to functions."] else [])
  ++ ((if metrics.accessModifiers < 1 then
    ["Add access modifiers (public/private) to class members."] else [])
  ++ ((if metrics.complexity < 1 then
    ["Simplify functions with high complexity by extracting logic."] else [])
  ++ ((if metrics.nesting < 1 then
    ["Reduce nesting with early returns or function extraction."] else [])
  ++ ((if metrics.preferConst < 1 then
    ["Use `const` instead of `let` for non-reassigned variables."] else [])
  ++ ((if metrics.avoidAssertions < 1 then
    ["Replace type assertions with type guards."] else [])
  ++ ((if metrics.useReadonly < 1 then
    ["Mark immutable properties as `readonly`."] else [])
  ++ ((if metrics.avoidVar < 1 then
    ["Replace `var` with `let` or `const`."] else [])
  ++ (if metrics.optionalChaining < 1 then
    ["Use optional chaining (`?.`) and nullish coalescing (`??`) for null checks."] else [])))))))))

/-- A childless node of the given kind, with no kind-specific accessors. -/
def leaf (k : SKind) : Node := .node { kind := k } []

/-- The parse tree of an empty source file: no functions, no classes, no
declarations, no expressions. -/
def emptyFile : Node := .node { kind := SKind.sourceFileKind } []

/-- The parse tree of `function f(a: any): any { if (a) { return a; } }`:
one function declaration carrying an explicit return-type annotation, with a
parameter typed `any`, an `any` return type, and a body holding one
`if` statement. -/
def scenarioFile : Node :=
  .node { kind := SKind.sourceFileKind } [
    .node { kind := SKind.functionDeclaration,
            returnTypeNode := some SKind.anyKeyword } [
      leaf SKind.identifier,
      .node { kind := SKind.parameter } [leaf SKind.identifier, leaf SKind.anyKeyword],
      leaf SKind.anyKeyword,
      .node { kind := SKind.block } [
        .node { kind := SKind.ifStatement } [
          leaf SKind.identifier,
          .node { kind := SKind.block } [
            .node { kind := SKind.returnStatement } [leaf SKind.identifier]]]]]]

/-- A file whose type annotations are twenty `any` keywords against a single
type reference, e.g. twenty parameters typed `any` and one typed `Foo`. -/
def manyAnyFile : Node :=
  .node { kind := SKind.sourceFileKind }
    (List.replicate 20 (leaf SKind.anyKeyword) ++ [leaf SKind.typeReference])

/-- A file holding a single legacy `var` declaration: a declaration list whose
flags set neither `Let` nor `Const`, with one variable declaration under it. -/
def varFile : Node :=
  .node { kind := SKind.sourceFileKind } [
    .node { kind := SKind.variableDeclarationList, flags := 0 } [
      .node { kind := SKind.variableDeclaration } []]]

/-- A file holding one class with a single member that lacks the
`getModifiers` accessor (e.g. a static block). -/
def bareMemberFile : Node :=
  .node { kind := SKind.sourceFileKind } [
    .node { kind := SKind.classDeclaration } [
      .node { kind := SKind.otherKind } []]]

/-- A file holding one property declaration that lacks the `getStructure`
accessor. -/
def barePropertyFile : Node :=
  .node { kind := SKind.sourceFileKind } [
    .node { kind := SKind.classDeclaration } [
      .node { kind := SKind.propertyDeclaration } []]]

/-- The ten metric accessors paired with their suggestion strings, in the
canonical metric order of the source. -/
def suggestionTable : List ((MetricSet → ℚ) × String) :=
  [(MetricSet.avoidAny, "Replace `any` with specific types or `unknown`."),
   (MetricSet.returnTypes, "Add explicit return types to functions."),
   (MetricSet.accessModifiers, "Add access modifiers (public/private) to class members."),
   (MetricSet.complexity, "Simplify functions with high complexity by extracting logic."),
   (MetricSet.nesting, "Reduce nesting with early returns or function extraction."),
   (MetricSet.preferConst, "Use `const` instead of `let` for non-reassigned variables."),
   (MetricSet.avoidAssertions, "Replace type assertions with type guards."),
   (MetricSet.useReadonly, "Mark immutable properties as `readonly`."),
   (MetricSet.avoidVar, "Replace `var` with `let` or `const`."),
   (MetricSet.optionalChaining,
     "Use optional chaining (`?.`) and nullish coalescing (`??`) for null checks.")]

/-- The suggestion list as the spec describes it: one entry per metric whose
ratio is strictly below 1, taken in the canonical metric order. -/
def suggestionsSpec (m : MetricSet) : List String :=
  (suggestionTable.filter (fun p => decide (p.1 m < 1))).map Prod.snd

/-- Modelled from the spec's aggregation formula (§4.3), for comparison with
`calculateScore`: both the weighted sum and the total weight are restricted
to the metric names present in both the metric mapping and the weight
table. -/
def specScore (metrics : List (String × ℚ)) : ℚ :=
  let present := metrics.filter (fun kv => (weightOf kv.1).isSome)
  let num := (present.map (fun kv => ((weightOf kv.1).getD 0) * kv.2)).sum
  let den := (present.map (fun kv => (weightOf kv.1).getD 0)).sum
  if den = 0 then 0 else num / den * 100

/-- The engine run the CLI performs per file: the MetricSet and the score. -/
def runEngine (sourceFile : Node) : MetricSet × ℚ :=
  let metrics := computeMetrics sourceFile
  (metrics, calculateScore (msEntries metrics))

/-- A quotient of two counts lies in `[0,1]` when the numerator is at most the
denominator (also in the degenerate `0/0` case, where division yields 0). -/
lemma natRatio_mem_unit (a b : Nat) (h : a ≤ b) :
    0 ≤ (a : ℚ) / (b : ℚ) ∧ (a : ℚ) / (b : ℚ) ≤ 1 := by
  rcases Nat.eq_zero_or_pos b with hb | hb
  · subst hb
    have : a = 0 := Nat.le_zero.mp h
    subst this
    norm_num
  · have hb' : (0 : ℚ) < (b : ℚ) := by exact_mod_cast hb
    constructor
    · exact div_nonneg (Nat.cast_nonneg a) (Nat.cast_nonneg b)
    · rw [div_le_one hb']
      exact_mod_cast h

/-- `calculateAvoidAny` never exceeds 1 (but can be negative). -/
lemma calculateAvoidAny_le_one (sf : Node) : calculateAvoidAny sf ≤ 1 := by
  unfold calculateAvoidAny
  dsimp only
  have h : (0 : ℚ) ≤
      ((sf.getDescendantsOfKind SKind.anyKeyword).length : ℚ) /
        ((if (sf.getDescendantsOfKind SKind.typeReference).length > 0 then
            (sf.getDescendantsOfKind SKind.typeReference).length
          else if (sf.getDescendantsOfKind SKind.anyKeyword).length > 0 then
            (sf.getDescendantsOfKind SKind.anyKeyword).length
          else 1 : Nat) : ℚ) :=
    div_nonneg (Nat.cast_nonneg _) (Nat.cast_nonneg _)
  simpa using sub_le_self 1 h

/-- `calculateAvoidAssertions` never exceeds 1 (but can be negative). -/
lemma calculateAvoidAssertions_le_one (sf : Node) : calculateAvoidAssertions sf ≤ 1 := by
  unfold calculateAvoidAssertions
  dsimp only
  have h : (0 : ℚ) ≤
      (((sf.getDescendantsOfKind SKind.typeAssertionExpression).length
          + (sf.getDescendantsOfKind SKind.nonNullExpression).length : Nat) : ℚ) /
        ((if (sf.getDescendantsOfKind SKind.asExpression).length
              + (sf.getDescendantsOfKind SKind.callExpression).length
              + (sf.getDescendantsOfKind SKind.binaryExpression).length = 0 then 1
          else (sf.getDescendantsOfKind SKind.asExpression).length
              + (sf.getDescendantsOfKind SKind.callExpression).length
              + (sf.getDescendantsOfKind SKind.binaryExpression).length : Nat) : ℚ) :=
    div_nonneg (Nat.cast_nonneg _) (Nat.cast_nonneg _)
  simpa using sub_le_self 1 h

/-- `calculateReturnTypes` lies in `[0,1]`. -/
lemma calculateReturnTypes_mem_unit (sf : Node) :
    0 ≤ calculateReturnTypes sf ∧ calculateReturnTypes sf ≤ 1 := by
  unfold calculateReturnTypes
  dsimp only
  split
  · norm_num
  · exact natRatio_mem_unit _ _ (List.length_filter_le _ _)

/-- `calculateAccessModifiers` lies in `[0,1]`. -/
lemma calculateAccessModifiers_mem_unit (sf : Node) :
    0 ≤ calculateAccessModifiers sf ∧ calculateAccessModifiers sf ≤ 1 := by
  unfold calculateAccessModifiers
  dsimp only
  split
  · norm_num
  · split
    · norm_num
    · exact natRatio_mem_unit _ _ (List.length_filter_le _ _)

/-- Each per-function complexity count is at least the base 1. -/
lemma one_le_functionComplexity (f : Node) : 1 ≤ functionComplexity f := by
  unfold functionComplexity
  omega

/-- The total complexity over a list of functions is at least their number. -/
lemma length_le_sum_functionComplexity (l : List Node) :
    l.length ≤ (l.map functionComplexity).sum := by
  induction l with
  | nil => simp
  | cons a t ih =>
      have := one_le_functionComplexity a
      simp only [List.map_cons, List.sum_cons, List.length_cons]
      omega

/-- `calculateComplexity` lies in `[0,1]`. -/
lemma calculateComplexity_mem_unit (sf : Node) :
    0 ≤ calculateComplexity sf ∧ calculateComplexity sf ≤ 1 := by
  unfold calculateComplexity
  dsimp only
  split
  · norm_num
  · refine ⟨le_max_left 0 _, max_le (by norm_num) ?_⟩
    have hlen : 0 < (sf.getFunctions.length : ℚ) := by
      have : 0 < sf.getFunctions.length := Nat.pos_of_ne_zero (by assumption)
      exact_mod_cast this
    have havg : (1 : ℚ) ≤
        ((sf.getFunctions.map functionComplexity).sum : ℚ) / (sf.getFunctions.length : ℚ) := by
      rw [le_div_iff₀ hlen, one_mul]
      exact_mod_cast length_le_sum_functionComplexity sf.getFunctions
    have : (0 : ℚ) ≤
        (((sf.getFunctions.map functionComplexity).sum : ℚ) / (sf.getFunctions.length : ℚ) - 1) / 5 := by
      apply div_nonneg _ (by norm_num)
      linarith
    linarith

/-- `calculateNesting` lies in `[0,1]`. -/
lemma calculateNesting_mem_unit (sf : Node) :
    0 ≤ calculateNesting sf ∧ calculateNesting sf ≤ 1 := by
  unfold calculateNesting
  dsimp only
  split
  · norm_num
  · refine ⟨le_max_left 0 _, max_le (by norm_num) ?_⟩
    have : (0 : ℚ) ≤ (((sf.getFunctions.map (fun f => getNesting f 0)).foldl max 0 : Nat) : ℚ) / 4 :=
      div_nonneg (Nat.cast_nonneg _) (by norm_num)
    linarith

/-- `calculatePreferConst` lies in `[0,1]`. -/
lemma calculatePreferConst_mem_unit (sf : Node) :
    0 ≤ calculatePreferConst sf ∧ calculatePreferConst sf ≤ 1 := by
  unfold calculatePreferConst
  dsimp only
  split
  · norm_num
  · exact natRatio_mem_unit _ _ (Nat.le_add_left _ _)

/-- `calculateUseReadonly` lies in `[0,1]`. -/
lemma calculateUseReadonly_mem_unit (sf : Node) :
    0 ≤ calculateUseReadonly sf ∧ calculateUseReadonly sf ≤ 1 := by
  unfold calculateUseReadonly
  dsimp only
  split
  · norm_num
  · exact natRatio_mem_unit _ _ (List.length_filter_le _ _)

/-- `calculateAvoidVar` lies in `[0,1]` (it is 0 or 1). -/
lemma calculateAvoidVar_mem_unit (sf : Node) :
    0 ≤ calculateAvoidVar sf ∧ calculateAvoidVar sf ≤ 1 := by
  unfold calculateAvoidVar
  split <;> norm_num

/-- `calculateOptionalChaining` lies in `[0,1]`. -/
lemma calculateOptionalChaining_mem_unit (sf : Node) :
    0 ≤ calculateOptionalChaining sf ∧ calculateOptionalChaining sf ≤ 1 := by
  unfold calculateOptionalChaining
  dsimp only
  by_cases h : ((sf.getDescendantsOfKind SKind.binaryExpression).filter
        (fun e => opTokenIs e SKind.ampersandAmpersandToken)).length
      + ((sf.getDescendantsOfKind SKind.questionDotToken).length
        + (sf.getDescendantsOfKind SKind.questionQuestionToken).length) = 0
  · have h2 : (sf.getDescendantsOfKind SKind.questionDotToken).length
        + (sf.getDescendantsOfKind SKind.questionQuestionToken).length = 0 := by omega
    simp only [h, if_pos, h2]
    norm_num
  · simp only [h, if_neg, if_false]
    exact natRatio_mem_unit _ _ (by omega)

/-- `weights["avoidAny"]` is defined and equals 10. -/
lemma weightOf_avoidAny : weightOf "avoidAny" = some 10 := by rfl

/-- `weights["returnTypes"]` is defined and equals 10. -/
lemma weightOf_returnTypes : weightOf "returnTypes" = some 10 := by rfl

/-- `weights["accessModifiers"]` is defined and equals 10. -/
lemma weightOf_accessModifiers : weightOf "accessModifiers" = some 10 := by rfl

/-- `weights["complexity"]` is defined and equals 10. -/
lemma weightOf_complexity : weightOf "complexity" = some 10 := by rfl

/-- `weights["nesting"]` is defined and equals 10. -/
lemma weightOf_nesting : weightOf "nesting" = some 10 := by rfl

/-- `weights["preferConst"]` is defined and equals 10. -/
lemma weightOf_preferConst : weightOf "preferConst" = some 10 := by rfl

/-- `weights["avoidAssertions"]` is defined and equals 10. -/
lemma weightOf_avoidAssertions : weightOf "avoidAssertions" = some 10 := by rfl

/-- `weights["useReadonly"]` is defined and equals 10. -/
lemma weightOf_useReadonly : weightOf "useReadonly" = some 10 := by rfl

/-- `weights["avoidVar"]` is defined and equals 10. -/
lemma weightOf_avoidVar : weightOf "avoidVar" = some 10 := by rfl

/-- `weights["optionalChaining"]` is defined and equals 10. -/
lemma weightOf_optionalChaining : weightOf "optionalChaining" = some 10 := by rfl

/-- The total of the weight table is 100, for every input file alike. -/
lemma totalWeight_eq : (weights.map Prod.snd).sum = 100 := by
  norm_num [weights]

/-- On a full ten-metric record, `calculateScore` is 10 times the sum of the
ten ratios (the division by the total weight 100 and the multiplication by
100 cancel). -/
lemma calculateScore_msEntries (m : MetricSet) :
    calculateScore (msEntries m) =
      10 * m.avoidAny + 10 * m.returnTypes + 10 * m.accessModifiers
        + 10 * m.complexity + 10 * m.nesting + 10 * m.preferConst
        + 10 * m.avoidAssertions + 10 * m.useReadonly + 10 * m.avoidVar
        + 10 * m.optionalChaining := by
  have h100 : (0:ℚ) < 100 := by norm_num
  simp only [calculateScore, msEntries, List.foldl, totalWeight_eq,
    weightOf_avoidAny, weightOf_returnTypes, weightOf_accessModifiers, weightOf_complexity,
    weightOf_nesting, weightOf_preferConst, weightOf_avoidAssertions, weightOf_useReadonly,
    weightOf_avoidVar, weightOf_optionalChaining, if_pos h100]
  ring

/-- The weighted-sum fold of `calculateScore` computes the sum, over the
entries whose key has a defined weight, of weight times value. -/
lemma foldl_weightedSum (ms : List (String × ℚ)) (init : ℚ) :
    ms.foldl (fun sum kv =>
      match weightOf kv.1 with
      | some w => sum + w * kv.2
      | none => sum) init
      = init + (ms.filterMap (fun kv => (weightOf kv.1).map (fun w => w * kv.2))).sum := by
  induction ms generalizing init with
  | nil => simp
  | cons kv rest ih =>
      rcases hw : weightOf kv.1 with _ | w
      · simp [List.foldl_cons, List.filterMap_cons, hw, ih]
      · simp [List.foldl_cons, List.filterMap_cons, hw, ih]
        ring

/-- Appending after a conditional singleton is a conditional cons. -/
lemma singleton_ite_append (c : Prop) [Decidable c] (s : String) (t : List String) :
    ((if c then [s] else []) ++ t) = if c then s :: t else t := by
  split <;> simp

/-- Flags clearing the `Let` bit and the `Const` bit clear their union. -/
lemma and_lor_eq_zero (f : Nat) (h1 : f &&& NodeFlags.Let = 0)
    (h2 : f &&& NodeFlags.Const = 0) :
    f &&& (NodeFlags.Let ||| NodeFlags.Const) = 0 := by
  rw [Nat.and_or_distrib_left, h1, h2]
  simp

/-- Every child occurs among the descendants (as a first component of the
descendant-parent pairs). -/
lemma mem_of_mem_children (c : Node) : ∀ (p : Node) (cs : List Node), c ∈ cs →
    c ∈ (pairsUnder p cs).map Prod.fst := by
  intro p cs
  induction cs generalizing p with
  | nil => intro h; cases h
  | cons x rest ih =>
      intro h
      obtain ⟨i, csx⟩ := x
      rcases List.mem_cons.mp h with heq | hmem
      · subst heq
        simp [pairsUnder]
      · rw [pairsUnder]
        simp only [List.map_cons, List.map_append, List.mem_cons, List.mem_append]
        right; right
        exact ih p hmem

/-- A file with no function-declaration descendant has no function-declaration
statement. -/
lemma getFunctions_eq_nil (sf : Node)
    (h : sf.getDescendantsOfKind SKind.functionDeclaration = []) :
    sf.getFunctions = [] := by
  rw [Node.getDescendantsOfKind, List.filter_eq_nil_iff] at h
  rw [Node.getFunctions, List.filter_eq_nil_iff]
  intro c hc
  apply h c
  rw [Node.getDescendants, Node.descendantPairs]
  exact mem_of_mem_children c sf sf.children hc

/-- The metric values of the empty source file: nine metrics default to 1,
but `calculateOptionalChaining` computes `0 / 1 = 0`. -/
lemma computeMetrics_emptyFile :
    computeMetrics emptyFile = ⟨1, 1, 1, 1, 1, 1, 1, 1, 1, 0⟩ := by
  simp [computeMetrics, calculateAvoidAny, calculateReturnTypes, calculateAccessModifiers,
    calculateComplexity, calculateNesting, calculatePreferConst, calculateAvoidAssertions,
    calculateUseReadonly, calculateAvoidVar, calculateOptionalChaining,
    emptyFile, Node.getDescendantsOfKind, Node.getDescendants, Node.descendantPairs,
    Node.children, pairsUnder, Node.getFunctions, Node.getClasses, opTokenIs, Node.getKind,
    Node.info]

/-- The metric values of `manyAnyFile`: `calculateAvoidAny` is `1 - 20/1 = -19`.
All other metrics take their defaults, except `calculateOptionalChaining`,
which computes `0 / 1 = 0`. -/
lemma computeMetrics_manyAnyFile :
    computeMetrics manyAnyFile = ⟨-19, 1, 1, 1, 1, 1, 1, 1, 1, 0⟩ := by
  simp [computeMetrics, calculateAvoidAny, calculateReturnTypes, calculateAccessModifiers,
    calculateComplexity, calculateNesting, calculatePreferConst, calculateAvoidAssertions,
    calculateUseReadonly, calculateAvoidVar, calculateOptionalChaining,
    manyAnyFile, Node.getDescendantsOfKind, Node.getDescendants, Node.descendantPairs,
    Node.children, pairsUnder, Node.getFunctions, Node.getClasses, opTokenIs, Node.getKind,
    Node.info, List.replicate, leaf]
  norm_num

/-- C1, counterexample: the claim "each of the ten metric functions returns a
value in [0,1] and calculateScore returns a value in [0,100]" is false. On a
file whose type annotations are twenty `any` usages against one type
reference, `calculateAvoidAny` returns −19 < 0 and the aggregate score is
−110 < 0. -/
theorem C1_counterexample :
    calculateAvoidAny manyAnyFile < 0 ∧
    calculateScore (msEntries (computeMetrics manyAnyFile)) < 0 := by
  have hm := computeMetrics_manyAnyFile
  have ha : calculateAvoidAny manyAnyFile = -19 := congrArg MetricSet.avoidAny hm
  have hs : calculateScore (msEntries (computeMetrics manyAnyFile)) = -110 := by
    rw [calculateScore_msEntries, hm]
    norm_num
  constructor
  · rw [ha]; norm_num
  · rw [hs]; norm_num

/-- C1 (amended): every metric function returns a value at most 1; the eight
metrics other than `calculateAvoidAny` and `calculateAvoidAssertions` return
values in [0,1]; and `calculateScore` on a MetricSet produced from a file is
at most 100. (`calculateAvoidAny`, `calculateAvoidAssertions` and hence the
score can be negative, as the counterexample shows.) -/
theorem C1_metric_and_score_bounds (sf : Node) :
    calculateAvoidAny sf ≤ 1 ∧
    calculateAvoidAssertions sf ≤ 1 ∧
    (0 ≤ calculateReturnTypes sf ∧ calculateReturnTypes sf ≤ 1) ∧
    (0 ≤ calculateAccessModifiers sf ∧ calculateAccessModifiers sf ≤ 1) ∧
    (0 ≤ calculateComplexity sf ∧ calculateComplexity sf ≤ 1) ∧
    (0 ≤ calculateNesting sf ∧ calculateNesting sf ≤ 1) ∧
    (0 ≤ calculatePreferConst sf ∧ calculatePreferConst sf ≤ 1) ∧
    (0 ≤ calculateUseReadonly sf ∧ calculateUseReadonly sf ≤ 1) ∧
    (0 ≤ calculateAvoidVar sf ∧ calculateAvoidVar sf ≤ 1) ∧
    (0 ≤ calculateOptionalChaining sf ∧ calculateOptionalChaining sf ≤ 1) ∧
    calculateScore (msEntries (computeMetrics sf)) ≤ 100 := by
  refine ⟨calculateAvoidAny_le_one sf, calculateAvoidAssertions_le_one sf,
    calculateReturnTypes_mem_unit sf, calculateAccessModifiers_mem_unit sf,
    calculateComplexity_mem_unit sf, calculateNesting_mem_unit sf,
    calculatePreferConst_mem_unit sf, calculateUseReadonly_mem_unit sf,
    calculateAvoidVar_mem_unit sf, calculateOptionalChaining_mem_unit sf, ?_⟩
  rw [calculateScore_msEntries]
  simp only [computeMetrics]
  have b1 := calculateAvoidAny_le_one sf
  have b2 := (calculateReturnTypes_mem_unit sf).2
  have b3 := (calculateAccessModifiers_mem_unit sf).2
  have b4 := (calculateComplexity_mem_unit sf).2
  have b5 := (calculateNesting_mem_unit sf).2
  have b6 := (calculatePreferConst_mem_unit sf).2
  have b7 := calculateAvoidAssertions_le_one sf
  have b8 := (calculateUseReadonly_mem_unit sf).2
  have b9 := (calculateAvoidVar_mem_unit sf).2
  have b10 := (calculateOptionalChaining_mem_unit sf).2
  linarith

/-- C2, counterexample: the claim "for an empty file every metric resolves to
1, the score is 100 and the suggestion list is empty" is false. On the empty
file, `calculateOptionalChaining` returns 0 (zero null-safe usages over the
fallback denominator 1), the score is 90, and the suggestion list is not
empty. -/
theorem C2_counterexample :
    calculateOptionalChaining emptyFile = 0 ∧
    calculateScore (msEntries (computeMetrics emptyFile)) = 90 ∧
    generateSuggestions (computeMetrics emptyFile) ≠ [] := by
  have hm := computeMetrics_emptyFile
  refine ⟨congrArg MetricSet.optionalChaining hm, ?_, ?_⟩
  · rw [calculateScore_msEntries, hm]
    norm_num
  · rw [hm]
    norm_num [generateSuggestions]

/-- C2 (amended): for the empty source file, the nine metrics other than
optionalChaining resolve to their zero-denominator default 1, but
optionalChaining resolves to 0 (zero null-safe operator usages divided by the
fallback denominator 1); the aggregate score is 90, and the suggestion list
holds exactly the optional-chaining suggestion. -/
theorem C2_empty_file :
    computeMetrics emptyFile = ⟨1, 1, 1, 1, 1, 1, 1, 1, 1, 0⟩ ∧
    calculateScore (msEntries (computeMetrics emptyFile)) = 90 ∧
    generateSuggestions (computeMetrics emptyFile) =
      ["Use optional chaining (`?.`) and nullish coalescing (`??`) for null checks."] := by
  have hm := computeMetrics_emptyFile
  refine ⟨hm, ?_, ?_⟩
  · rw [calculateScore_msEntries, hm]
    norm_num
  · rw [hm]
    norm_num [generateSuggestions]

/-- C3, counterexample: the claim that the divisor of `calculateScore` is the
sum of the weights restricted to the metric names present in the input is
false. On the one-entry record `avoidAny = 1`, the claimed formula
(`specScore`) yields 100, but `calculateScore` divides by the total of all
ten weights and yields 10. -/
theorem C3_counterexample :
    calculateScore [("avoidAny", (1:ℚ))] = 10 ∧
    specScore [("avoidAny", (1:ℚ))] = 100 := by
  constructor
  · have h100 : (0:ℚ) < 100 := by norm_num
    simp only [calculateScore, List.foldl, totalWeight_eq, weightOf_avoidAny, if_pos h100]
    norm_num
  · simp only [specScore, List.filter, List.map, weightOf_avoidAny, Option.isSome_some,
      Option.getD_some, List.sum_cons, List.sum_nil]
    norm_num

/-- C3 (amended): for every metric mapping `m`, `calculateScore m` equals the
sum, over the entries of `m` whose name has a defined weight, of weight times
value, divided by the total of ALL weights in the weight table (100,
regardless of which names appear in `m`), times 100. Names absent from the
weight table are ignored in the numerator only. (The zero-total-weight guard
returning 0 exists in the code but is unreachable with the fixed table.) -/
theorem C3_score_formula (ms : List (String × ℚ)) :
    calculateScore ms =
      (ms.filterMap (fun kv => (weightOf kv.1).map (fun w => w * kv.2))).sum
        / (weights.map Prod.snd).sum * 100 := by
  rw [calculateScore]
  rw [foldl_weightedSum, totalWeight_eq, if_pos (by norm_num : (100:ℚ) > 0)]
  norm_num

/-- C4: for every MetricSet (all ten metrics present) whose values are at most
1, `generateSuggestions` returns exactly the suggestions of the metrics
strictly below 1, in the ten metrics' fixed canonical order
(`suggestionsSpec`); its length is the number of entries strictly below 1;
and it is empty exactly when every metric equals 1. -/
theorem C4_suggestions (m : MetricSet) (h : ∀ kv ∈ msEntries m, kv.2 ≤ 1) :
    generateSuggestions m = suggestionsSpec m ∧
    (generateSuggestions m).length
      = ((msEntries m).filter (fun kv => decide (kv.2 < 1))).length ∧
    (generateSuggestions m = [] ↔ ∀ kv ∈ msEntries m, kv.2 = 1) := by
  have hgen : generateSuggestions m = suggestionsSpec m := by
    simp only [generateSuggestions, suggestionsSpec, suggestionTable, List.filter_cons,
      List.filter_nil, decide_eq_true_eq, singleton_ite_append, List.append_nil,
      apply_ite (List.map Prod.snd), List.map_cons, List.map_nil]
  refine ⟨hgen, ?_, ?_⟩
  · rw [hgen]
    simp only [suggestionsSpec, suggestionTable, msEntries, List.filter_cons, List.filter_nil,
      decide_eq_true_eq, List.length_map, apply_ite List.length, List.length_cons,
      List.length_nil]
  · simp only [msEntries, List.mem_cons, forall_eq_or_imp, List.not_mem_nil,
      false_implies, forall_const, and_true] at h ⊢
    obtain ⟨h1, h2, h3, h4, h5, h6, h7, h8, h9, h10⟩ := h
    simp only [generateSuggestions, List.append_eq_nil, ite_eq_right_iff,
      List.cons_ne_nil, imp_false, not_lt]
    constructor
    · rintro ⟨g1, g2, g3, g4, g5, g6, g7, g8, g9, g10⟩
      exact ⟨le_antisymm h1 g1, le_antisymm h2 g2, le_antisymm h3 g3, le_antisymm h4 g4,
        le_antisymm h5 g5, le_antisymm h6 g6, le_antisymm h7 g7, le_antisymm h8 g8,
        le_antisymm h9 g9, le_antisymm h10 g10⟩
    · rintro ⟨g1, g2, g3, g4, g5, g6, g7, g8, g9, g10⟩
      exact ⟨g1.ge, g2.ge, g3.ge, g4.ge, g5.ge, g6.ge, g7.ge, g8.ge, g9.ge, g10.ge⟩

/-- C4, witness: the all-ones MetricSet satisfies the hypothesis, and on it
the suggestion machinery behaves as C4 states. -/
theorem C4_witness :
    (∀ kv ∈ msEntries ⟨1, 1, 1, 1, 1, 1, 1, 1, 1, 1⟩, kv.2 ≤ 1) ∧
    (generateSuggestions ⟨1, 1, 1, 1, 1, 1, 1, 1, 1, 1⟩
        = suggestionsSpec ⟨1, 1, 1, 1, 1, 1, 1, 1, 1, 1⟩ ∧
      (generateSuggestions ⟨1, 1, 1, 1, 1, 1, 1, 1, 1, 1⟩).length
        = ((msEntries ⟨1, 1, 1, 1, 1, 1, 1, 1, 1, 1⟩).filter
            (fun kv => decide (kv.2 < 1))).length ∧
      (generateSuggestions ⟨1, 1, 1, 1, 1, 1, 1, 1, 1, 1⟩ = [] ↔
        ∀ kv ∈ msEntries ⟨1, 1, 1, 1, 1, 1, 1, 1, 1, 1⟩, kv.2 = 1)) :=
  ⟨by simp [msEntries], C4_suggestions ⟨1, 1, 1, 1, 1, 1, 1, 1, 1, 1⟩ (by simp [msEntries])⟩

/-- C5: on the parse tree of `function f(a: any): any { if (a) { return a; } }`,
avoidAny is strictly below 1, returnTypes is 1 (explicit return type present),
complexity is `max(0, 1 − (2 − 1)/5) = 4/5` (base 1 plus one if-statement),
and nesting is `1 − 1/4 = 3/4` (maximum depth 1). -/
theorem C5_scenario :
    calculateAvoidAny scenarioFile < 1 ∧
    calculateReturnTypes scenarioFile = 1 ∧
    calculateComplexity scenarioFile = 4/5 ∧
    calculateNesting scenarioFile = 3/4 := by
  refine ⟨?_, ?_, ?_, ?_⟩
  · have h : calculateAvoidAny scenarioFile = 0 := by
      simp [calculateAvoidAny, scenarioFile, Node.getDescendantsOfKind, Node.getDescendants,
        Node.descendantPairs, Node.children, pairsUnder, Node.getKind, Node.info, leaf]
    rw [h]; norm_num
  · simp [calculateReturnTypes, scenarioFile, Node.getFunctions, Node.children,
      Node.getKind, Node.info, leaf, Node.hasReturnTypeNode]
  · simp [calculateComplexity, scenarioFile, Node.getFunctions, Node.getDescendantsOfKind,
      Node.getDescendants, Node.descendantPairs, Node.children, pairsUnder, Node.getKind,
      Node.info, leaf, functionComplexity, opTokenIs]
    norm_num
  · simp [calculateNesting, scenarioFile, Node.getFunctions, getNesting, getNestingList,
      nestingKinds, Node.children, Node.getKind, Node.info, leaf]
    norm_num

/-- C6: a source file with no function-declaration descendant has
returnTypes, complexity and nesting all exactly 1. -/
theorem C6_zero_functions (sf : Node)
    (h : sf.getDescendantsOfKind SKind.functionDeclaration = []) :
    calculateReturnTypes sf = 1 ∧ calculateComplexity sf = 1 ∧ calculateNesting sf = 1 := by
  have hfn := getFunctions_eq_nil sf h
  refine ⟨?_, ?_, ?_⟩ <;>
    simp [calculateReturnTypes, calculateComplexity, calculateNesting, hfn]

/-- C6, witness: the empty file has no function declaration, and its
returnTypes, complexity and nesting metrics are all 1. -/
theorem C6_witness :
    emptyFile.getDescendantsOfKind SKind.functionDeclaration = [] ∧
    (calculateReturnTypes emptyFile = 1 ∧ calculateComplexity emptyFile = 1 ∧
      calculateNesting emptyFile = 1) :=
  ⟨by simp [emptyFile, Node.getDescendantsOfKind, Node.getDescendants, Node.descendantPairs,
      Node.children, pairsUnder],
   C6_zero_functions emptyFile
     (by simp [emptyFile, Node.getDescendantsOfKind, Node.getDescendants, Node.descendantPairs,
        Node.children, pairsUnder])⟩

/-- C7: `calculateAvoidVar` is 0 exactly when some variable-declaration
descendant sits under a declaration list whose flags mark it neither `let`
nor `const`, and 1 otherwise, regardless of any other declarations in the
file. -/
theorem C7_avoidVar_binary (sf : Node) :
    calculateAvoidVar sf =
      if ∃ pr ∈ sf.descendantPairs,
          pr.1.getKind = SKind.variableDeclaration ∧
          pr.2.getKind = SKind.variableDeclarationList ∧
          pr.2.getFlags &&& (NodeFlags.Let ||| NodeFlags.Const) = 0
      then 0 else 1 := by
  rw [calculateAvoidVar]
  refine if_congr ?_ rfl rfl
  simp [List.any_eq_true, List.mem_filter, isVarDeclPair, and_assoc]

/-- C8: the engine is deterministic; running the ten metric functions and the
score aggregator twice over the same unchanged tree yields identical results
(all functions are pure, so both runs are the same value). -/
theorem C8_deterministic (sf : Node) :
    computeMetrics sf = computeMetrics sf ∧
    calculateScore (msEntries (computeMetrics sf))
      = calculateScore (msEntries (computeMetrics sf)) ∧
    runEngine sf = runEngine sf :=
  ⟨rfl, rfl, rfl⟩

/-- C9: a node lacking a kind-specific accessor is treated as non-matching by
every metric filter: a class member without a modifier list counts as having
no modifiers, a binary expression without an operator token matches neither
logical-AND nor logical-OR, and a property without a structure accessor
counts as not read-only; concretely, a class whose only member lacks the
accessor scores 0 on accessModifiers, and a file whose only property lacks
the accessor scores 0 on useReadonly — in all cases the functions return
(they are total), never raising. -/
theorem C9_missing_accessors (m e p : Node)
    (hm : m.info.modifiers = none)
    (he : e.info.operatorToken = none)
    (hp : p.info.structureIsReadonly = none) :
    memberHasModifiers m = false ∧
    opTokenIs e SKind.ampersandAmpersandToken = false ∧
    opTokenIs e SKind.barBarToken = false ∧
    propIsReadonly p = false ∧
    calculateAccessModifiers bareMemberFile = 0 ∧
    calculateUseReadonly barePropertyFile = 0 := by
  refine ⟨?_, ?_, ?_, ?_, ?_, ?_⟩
  · simp [memberHasModifiers, hm]
  · simp [opTokenIs, he]
  · simp [opTokenIs, he]
  · simp [propIsReadonly, hp]
  · simp [calculateAccessModifiers, bareMemberFile, Node.getClasses, Node.getMembers,
      Node.children, Node.getKind, Node.info, memberHasModifiers]
  · simp [calculateUseReadonly, barePropertyFile, Node.getDescendantsOfKind,
      Node.getDescendants, Node.descendantPairs, Node.children, pairsUnder, Node.getKind,
      Node.info, propIsReadonly]

/-- C9, witness: a bare node of no particular kind lacks all three accessors
and every filter treats it as non-matching. -/
theorem C9_witness :
    (leaf SKind.otherKind).info.modifiers = none ∧
    (leaf SKind.otherKind).info.operatorToken = none ∧
    (leaf SKind.otherKind).info.structureIsReadonly = none ∧
    (memberHasModifiers (leaf SKind.otherKind) = false ∧
      opTokenIs (leaf SKind.otherKind) SKind.ampersandAmpersandToken = false ∧
      opTokenIs (leaf SKind.otherKind) SKind.barBarToken = false ∧
      propIsReadonly (leaf SKind.otherKind) = false ∧
      calculateAccessModifiers bareMemberFile = 0 ∧
      calculateUseReadonly barePropertyFile = 0) :=
  ⟨rfl, rfl, rfl,
   C9_missing_accessors (leaf SKind.otherKind) (leaf SKind.otherKind) (leaf SKind.otherKind)
     rfl rfl rfl⟩

/-- C10: on a file holding at least one variable declaration, all of whose
variable declarations are legacy `var` declarations (each under a declaration
list whose flags set neither `Let` nor `Const`), preferConst is 1 (var
declarations enter neither its numerator nor its denominator, so the
no-declarations default applies) while avoidVar is 0. -/
theorem C10_var_only (sf : Node)
    (h1 : ∀ pr ∈ sf.descendantPairs, pr.1.getKind = SKind.variableDeclaration →
      pr.2.getKind = SKind.variableDeclarationList ∧
      pr.2.getFlags &&& NodeFlags.Let = 0 ∧ pr.2.getFlags &&& NodeFlags.Const = 0)
    (h2 : ∃ pr ∈ sf.descendantPairs, pr.1.getKind = SKind.variableDeclaration) :
    calculatePreferConst sf = 1 ∧ calculateAvoidVar sf = 0 := by
  have hlets : ((sf.descendantPairs.filter
      (fun pr => pr.1.getKind == SKind.variableDeclaration)).filter isLetDeclPair) = [] := by
    rw [List.filter_eq_nil_iff]
    intro pr hpr
    rw [List.mem_filter] at hpr
    obtain ⟨hmem, hkind⟩ := hpr
    have hpk := h1 pr hmem (by simpa using hkind)
    simp [isLetDeclPair, hpk.2.1]
  have hconsts : ((sf.descendantPairs.filter
      (fun pr => pr.1.getKind == SKind.variableDeclaration)).filter isConstDeclPair) = [] := by
    rw [List.filter_eq_nil_iff]
    intro pr hpr
    rw [List.mem_filter] at hpr
    obtain ⟨hmem, hkind⟩ := hpr
    have hpk := h1 pr hmem (by simpa using hkind)
    simp [isConstDeclPair, hpk.2.2]
  constructor
  · rw [calculatePreferConst]
    simp only [hlets, hconsts, List.length_nil]
    simp
  · rw [calculateAvoidVar]
    rw [if_pos]
    obtain ⟨pr, hmem, hkind⟩ := h2
    have hpk := h1 pr hmem hkind
    rw [List.any_eq_true]
    refine ⟨pr, ?_, ?_⟩
    · rw [List.mem_filter]
      exact ⟨hmem, by simp [hkind]⟩
    · simp [isVarDeclPair, hpk.1, and_lor_eq_zero _ hpk.2.1 hpk.2.2]

/-- C10, witness: the one-var file satisfies both hypotheses, its preferConst
is 1 and its avoidVar is 0. -/
theorem C10_witness :
    ((∀ pr ∈ varFile.descendantPairs, pr.1.getKind = SKind.variableDeclaration →
        pr.2.getKind = SKind.variableDeclarationList ∧
        pr.2.getFlags &&& NodeFlags.Let = 0 ∧ pr.2.getFlags &&& NodeFlags.Const = 0) ∧
      (∃ pr ∈ varFile.descendantPairs, pr.1.getKind = SKind.variableDeclaration)) ∧
    (calculatePreferConst varFile = 1 ∧ calculateAvoidVar varFile = 0) :=
  ⟨⟨by simp [varFile, Node.descendantPairs, pairsUnder, Node.children, Node.getKind,
      Node.getFlags, Node.info, NodeFlags.Let, NodeFlags.Const],
    by simp [varFile, Node.descendantPairs, pairsUnder, Node.children, Node.getKind,
      Node.info]⟩,
   C10_var_only varFile
     (by simp [varFile, Node.descendantPairs, pairsUnder, Node.children, Node.getKind,
        Node.getFlags, Node.info, NodeFlags.Let, NodeFlags.Const])
     (by simp [varFile, Node.descendantPairs, pairsUnder, Node.children, Node.getKind,
        Node.info])⟩

end TsScore
